import Mathlib

/-! Verification of the MiroFlow sandboxed execution session manager.

Shallow embedding of `sandbox/docker_sandbox.py` (the local Docker backend:
container lifecycle, registry, command/code execution, archive file
transport, auto-expiry) and of `src/tool/mcp_servers/python_server.py`
(the MCP facade exposed to the calling agent).  Python dictionaries are
modelled as functions into `Option`, byte strings as `List UInt8`, the
Docker transport layer as explicit outcome parameters (success with the
demuxed output, or a raised exception), and the process-plus-runtime state
as an explicit record threaded through the operations. -/

namespace MiroFlow

/-- Raw byte payloads moved in and out of the sandbox. -/
abbrev Bytes := List UInt8

/-- A Python `dict` keyed by strings: total lookup into `Option`. -/
abbrev Dict (α : Type) := String → Option α

/-- The empty dictionary. -/
def demp {α : Type} : Dict α := fun _ => none

/-- `d[k] = v` on a dictionary. -/
def dset {α : Type} (m : Dict α) (k : String) (v : α) : Dict α :=
  fun q => if q = k then some v else m q

/-- `d.pop(k, None)`: remove the entry for `k` when present. -/
def dpop {α : Type} (m : Dict α) (k : String) : Dict α :=
  fun q => if q = k then none else m q

/-- Whether the character list `p` is a prefix of `l`. -/
def listHasPre : List Char → List Char → Bool
  | [], _ => true
  | _ :: _, [] => false
  | p :: ps, c :: cs => p = c && listHasPre ps cs

/-- Whether the character list `nd` occurs inside `l` (Python `nd in l`). -/
def listHasSub (nd : List Char) : List Char → Bool
  | [] => listHasPre nd []
  | c :: cs => listHasPre nd (c :: cs) || listHasSub nd cs

/-- Python `needle in hay` on strings. -/
def strHasSub (hay needle : String) : Bool :=
  listHasSub needle.toList hay.toList

/-- Python `str.split(sep)` for a one-character separator, on char lists.
    Like Python (and unlike some split conventions) the result is never
    empty and keeps empty pieces: `"".split("/") = [""]`. -/
def splitChars (sep : Char) : List Char → List (List Char)
  | [] => [[]]
  | c :: cs =>
    let r := splitChars sep cs
    if c = sep then [] :: r
    else
      match r with
      | [] => [[c]]
      | w :: ws => (c :: w) :: ws

/-- `path.split("/")` as the Python source uses it. -/
def splitOnSlash (s : String) : List String :=
  (splitChars '/' s.toList).map fun w => String.mk w

/-- `"/".join(parts)`. -/
def joinSlash : List String → String
  | [] => ""
  | [w] => w
  | w :: ws => w ++ "/" ++ joinSlash ws

/-- `s.endswith(suffix)` via reversed char lists. -/
def strEndsWith (s suffix : String) : Bool :=
  listHasPre suffix.toList.reverse s.toList.reverse

/-- `s.startswith(prefix)`. -/
def strStartsWith (s pre : String) : Bool :=
  listHasPre pre.toList s.toList

/-- `code.encode("utf-8")`. -/
def strBytes (s : String) : Bytes :=
  s.toUTF8.toList

/-- Mirrors the E2B `CommandResult` shape (`docker_sandbox.py`, `CommandResult`). -/
structure CommandResult where
  stdout : String := ""
  stderr : String := ""
  exit_code : Int := 0
  error : Option String := none

/-- Mirrors the E2B execution result shape (`docker_sandbox.py`, `CodeResult`);
    the always-empty `results` list is omitted. -/
structure CodeResult where
  stdout : String := ""
  stderr : String := ""
  exit_code : Int := 0
  error : Option String := none

/-- The errors the sandbox layer raises: `docker.errors.NotFound` carrying a
    message (the spec's `SessionNotFoundError`). -/
inductive DockerError where
  | notFound (msg : String)

/-- Outcome of one `Container.exec_run(..., demux=True)` transport call:
    the `(exit_code, (stdout, stderr))` tuple with the two already-decoded
    demuxed capture channels (`None` when a channel saw no output), or an
    exception raised by the transport/execution layer itself. -/
inductive ExecOutcome where
  | ok (exit_code : Int) (stdout : Option String) (stderr : Option String)
  | raises (msg : String)

/-- The slice of a Docker container this layer observes: its `status`
    string, its filesystem, and the directories `mkdir -p` created. -/
structure ContainerState where
  status : String
  files : Dict Bytes
  dirs : String → Bool

/-- One `DockerSandbox` instance: the held container reference (by name, as
    Docker resolves it), `sandbox_id`, configured `timeout`, `_created_at`. -/
structure Sandbox where
  container_name : String
  sandbox_id : String
  timeout : Nat
  created_at : Nat

/-- Process-plus-runtime state: the Docker daemon's containers keyed by
    container name, the class-level in-process `_registry`, and the pending
    `threading.Timer` auto-cleanup triggers (sandbox_id to the delay in
    seconds they were armed with at `create`). -/
structure SysState where
  containers : Dict ContainerState
  registry : Dict Sandbox
  timers : Dict Nat

namespace DockerSandbox

/-- The tar entry name `TarInfo(name=path.split("/")[-1])` uses, and the
    name under which `get_archive` returns a single file. -/
def lastComponent (path : String) : String :=
  (splitOnSlash path).getLastD ""

/-- `"/".join(path.split("/")[:-1]) or "/"`: the destination directory
    `_write_file_to_container` hands to `put_archive`. -/
def destDirOf (path : String) : String :=
  let d := joinSlash (splitOnSlash path).dropLast
  if d = "" then "/" else d

/-- Where the Docker daemon materialises a tar entry named `name` extracted
    at directory `dir` (`put_archive` semantics). -/
def archivedPath (dir name : String) : String :=
  if strEndsWith dir "/" then dir ++ name else dir ++ "/" ++ name

/-- The container path at which `_write_file_to_container path` lands. -/
def writePathOf (path : String) : String :=
  archivedPath (destDirOf path) (lastComponent path)

/-- One archived file inside a tar stream. -/
structure TarEntry where
  name : String
  data : Bytes

/-- `Container.put_archive(dir, tar)`: extract every entry under `dir`. -/
def put_archive (dir : String) (entries : List TarEntry) (c : ContainerState) :
    ContainerState :=
  { c with files := entries.foldl (fun fs e => dset fs (archivedPath dir e.name) e.data) c.files }

/-- `Container.get_archive(path)`: a single-entry tar stream holding the
    file at `path`, or a raised `NotFound` when no such file exists. -/
def get_archive (path : String) (c : ContainerState) :
    Except DockerError (List TarEntry) :=
  match c.files path with
  | none => .error (.notFound ("file not found: " ++ path))
  | some data => .ok [⟨lastComponent path, data⟩]

/-- `DockerSandbox._write_file_to_container`: pack `data` into a
    single-entry tar named after the path's last component, ensure the
    destination directory exists (`mkdir -p`, as root), and `put_archive`
    it at the destination directory. -/
def write_file_to_container (path : String) (data : Bytes) (c : ContainerState) :
    ContainerState :=
  let dest_dir := destDirOf path
  let entries := [TarEntry.mk (lastComponent path) data]
  let c1 := { c with dirs := fun d => if d = dest_dir then true else c.dirs d }
  put_archive dest_dir entries c1

/-- `DockerSandbox.create`: start a fresh container named
    `"mf-" + uuid4().hex[:12]` (the twelve hex digits are the `uuidHex`
    parameter) in the running state, build the instance, register it under
    its id, and arm the auto-cleanup `threading.Timer` for `timeout`
    seconds.  `image` and `network_enabled` configure the container itself
    and are not observed further by this layer. -/
def create (image : String) (timeout : Nat) (network_enabled : Bool)
    (uuidHex : String) (now : Nat) (s : SysState) : SysState × Sandbox :=
  let sandbox_id := "mf-" ++ uuidHex
  let container : ContainerState :=
    { status := "running", files := demp, dirs := fun _ => false }
  let sandbox : Sandbox :=
    { container_name := sandbox_id, sandbox_id := sandbox_id,
      timeout := timeout, created_at := now }
  ({ containers := dset s.containers sandbox_id container,
     registry := dset s.registry sandbox_id sandbox,
     timers := dset s.timers sandbox_id timeout }, sandbox)

/-- `DockerSandbox.connect`: registry lookup first; on a miss, a direct
    by-name lookup against the Docker daemon (`client.containers.get`),
    raising `NotFound` when the container is absent or not running, else
    re-registering a fresh instance with the hard-coded timeout 1800.  On a
    registry hit, `reload()` the held container (which itself raises
    `NotFound` if the container is gone from the daemon) and check its
    status, purging the stale entry before raising when it is no longer
    running. -/
def connect (sandbox_id : String) (now : Nat) (s : SysState) :
    SysState × Except DockerError Sandbox :=
  match s.registry sandbox_id with
  | none =>
    match s.containers sandbox_id with
    | none =>
      (s, .error (.notFound
        ("Sandbox '" ++ sandbox_id ++ "' not found or already expired.")))
    | some container =>
      if container.status ≠ "running" then
        (s, .error (.notFound
          ("Sandbox '" ++ sandbox_id ++ "' container is no longer running.")))
      else
        let sandbox : Sandbox :=
          { container_name := sandbox_id, sandbox_id := sandbox_id,
            timeout := 1800, created_at := now }
        ({ s with registry := dset s.registry sandbox_id sandbox }, .ok sandbox)
  | some sandbox =>
    match s.containers sandbox.container_name with
    | none =>
      (s, .error (.notFound "404 Client Error: no such container"))
    | some container =>
      if container.status ≠ "running" then
        ({ s with registry := dpop s.registry sandbox.sandbox_id },
         .error (.notFound
           ("Sandbox '" ++ sandbox_id ++ "' container is no longer running.")))
      else
        (s, .ok sandbox)

/-- `DockerSandbox.run_command`: compute `exec_timeout = timeout or
    self.timeout` (which the body then never uses), run the command through
    `exec_run`, decode the demuxed channels with `or b""` defaults, and
    catch any raised exception into a `CommandResult` with `exit_code=1`
    and `error` set. -/
def run_command (self : Sandbox) (command : String) (timeout : Option Nat)
    (exec : ExecOutcome) : CommandResult :=
  let exec_timeout :=
    match timeout with
    | some t => if t = 0 then self.timeout else t
    | none => self.timeout
  match exec with
  | .ok exit_code stdout stderr =>
    { stdout := stdout.getD "", stderr := stderr.getD "",
      exit_code := exit_code, error := none }
  | .raises msg => { exit_code := 1, error := some msg }

/-- The temporary execution file name `f"/tmp/_mf_exec_{uuid4().hex[:8]}.py"`. -/
def tmpPathOf (uuidHex : String) : String :=
  "/tmp/_mf_exec_" ++ uuidHex ++ ".py"

/-- `DockerSandbox.run_code`: write the code to the fresh temporary file in
    the container, `exec_run` the interpreter on it (`exec` is that call's
    transport outcome, caught into the result exactly as in `run_command`),
    and in the `finally` block issue `rm -f` on the temporary file inside
    its own try/except (`rmFails` is that inner call's transport failing). -/
def run_code (code : String) (uuidHex : String) (exec : ExecOutcome)
    (rmFails : Bool) (c : ContainerState) : ContainerState × CodeResult :=
  let tmp_path := tmpPathOf uuidHex
  let c1 := write_file_to_container tmp_path (strBytes code) c
  let result : CodeResult :=
    match exec with
    | .ok exit_code stdout stderr =>
      { stdout := stdout.getD "", stderr := stderr.getD "",
        exit_code := exit_code, error := none }
    | .raises msg => { exit_code := 1, error := some msg }
  let c2 := if rmFails then c1 else { c1 with files := dpop c1.files tmp_path }
  (c2, result)

/-- `DockerSandbox.upload_file`: read the local file's raw bytes (raising
    when the local path does not resolve) and write them into the
    container. -/
def upload_file (local_files : Dict Bytes) (local_path sandbox_path : String)
    (c : ContainerState) : Except String ContainerState :=
  match local_files local_path with
  | none => .error ("No such file or directory: '" ++ local_path ++ "'")
  | some data => .ok (write_file_to_container sandbox_path data c)

/-- `DockerSandbox.download_file`: `get_archive` the path, open the tar
    stream, take its first member and return that file's bytes. -/
def download_file (sandbox_path : String) (c : ContainerState) :
    Except DockerError Bytes := do
  let tar ← get_archive sandbox_path c
  match tar with
  | [] => .error (.notFound "IndexError: list index out of range")
  | member :: _ => .ok member.data

/-- `DockerSandbox.set_timeout`: assign `self.timeout = seconds` on the
    instance (which the registry shares); nothing else happens — in
    particular the armed auto-cleanup timer is left untouched. -/
def set_timeout (self : Sandbox) (seconds : Nat) (s : SysState) :
    SysState × Sandbox :=
  let updated := { self with timeout := seconds }
  ({ s with registry := fun q =>
      if q = self.sandbox_id then (s.registry q).map fun _ => updated
      else s.registry q }, updated)

/-- `DockerSandbox.kill`: `self._container.remove(force=True)` inside a
    swallowing try/except (absent container or transport failure,
    `removeFails`, both land in the except), then always purge the registry
    entry.  Returns what the call raises to its caller: nothing. -/
def kill (self : Sandbox) (removeFails : Bool) (s : SysState) :
    SysState × Except DockerError Unit :=
  let s1 :=
    if removeFails then s
    else
      match s.containers self.container_name with
      | none => s
      | some _ => { s with containers := dpop s.containers self.container_name }
  ({ s1 with registry := dpop s1.registry self.sandbox_id }, .ok ())

/-- `DockerSandbox._auto_cleanup`, run by the timer thread: `reload()` the
    container and force-remove it only when its status is `"running"`, the
    whole check-and-remove inside a swallowing try/except (a vanished
    container makes `reload` raise, and `removeFails` is the removal call
    itself failing); then always purge the registry entry. -/
def auto_cleanup (self : Sandbox) (removeFails : Bool) (s : SysState) :
    SysState × Except DockerError Unit :=
  let s1 :=
    match s.containers self.container_name with
    | none => s
    | some container =>
      if container.status = "running" then
        if removeFails then s
        else { s with containers := dpop s.containers self.container_name }
      else s
  ({ s1 with registry := dpop s1.registry self.sandbox_id }, .ok ())

end DockerSandbox

/-! The MCP facade of `python_server.py`, with the docker backend selected.
Each tool's fallible calls into the backend appear as explicit outcome
parameters: `connectR` for the `_connect` call, and a list of per-attempt
outcomes for the bodies run inside a bounded retry loop (five attempts for
create/run tools, three for the wget download).  A raised Python exception
is a `PyExc`; every tool itself is a total function into `String`. -/

namespace PythonServer

/-- A raised Python exception as the facade renders it:
    `type(e).__name__` and `str(e)`. -/
structure PyExc where
  name : String
  msg : String

/-- `os.path.join(dir, name)` for the cases the facade exercises. -/
def os_path_join (dir name : String) : String :=
  if strStartsWith name "/" then name
  else if dir = "" then name
  else if strEndsWith dir "/" then dir ++ name
  else dir ++ "/" ++ name

/-- `os.path.basename(path)`. -/
def os_path_basename (path : String) : String :=
  (splitOnSlash path).getLastD ""

/-- Python whitespace for `str.strip()`. -/
def isPySpace (c : Char) : Bool :=
  c = ' ' || c = '\t' || c = '\n' || c = '\r'

/-- Truthiness of `local_filename.strip()`: whether anything remains. -/
def strBlank (s : String) : Bool :=
  s.toList.all isPySpace

/-- The connect-failure message every session-bound tool returns. -/
def connectErrorMsg (sandbox_id : String) : String :=
  "[ERROR]: Failed to connect to sandbox " ++ sandbox_id ++
  ", retry later. Make sure the sandbox is created and the id is correct."

/-- `create_sandbox`: up to five attempts at `_create_sandbox()` (plus the
    log-directory `makedirs`), returning the success message on the first
    attempt that does not raise, and after the fifth failure a plain
    failure message. -/
def create_sandbox : List (Except PyExc String) → String
  | [] => ""
  | [attempt] =>
    match attempt with
    | .ok sandbox_id => "Sandbox created with sandbox_id: " ++ sandbox_id
    | .error e =>
      "Failed to create sandbox after 5 attempts: " ++ e.msg ++
      ", please retry later."
  | attempt :: rest =>
    match attempt with
    | .ok sandbox_id => "Sandbox created with sandbox_id: " ++ sandbox_id
    | .error _ => create_sandbox rest

/-- Whether `"pip install" in command or "apt-get" in command`. -/
def pipNoteNeeded (command : String) : Bool :=
  strHasSub command "pip install" || strHasSub command "apt-get"

/-- The success string of the `run_command` tool: the stringified result,
    with the package-install note appended for install-like commands. -/
def runCommandOk (command result_str : String) : String :=
  if pipNoteNeeded command then
    result_str ++
    "\n\n[PACKAGE INSTALL STATUS]: The system packages and Python packages " ++
    "required for the task have been installed. No need to install them " ++
    "again unless a missing package error occurs."
  else result_str

/-- The final error string of the `run_command` tool after five failed
    attempts, with its hints and the conditional package note. -/
def runCommandFinalError (command : String) (e : PyExc) : String :=
  let error_msg :=
    "[ERROR]: Failed to run command after 5 attempts. Exception type: " ++
    e.name ++ ", Details: " ++ e.msg ++ ".\n\n" ++
    "[HINT]: Shell commands can be error-prone. Consider using the " ++
    "`run_python_code` tool instead.\n\n" ++
    "[PERMISSION HINT]: You are running as user, not root. Use " ++
    "`sudo` for commands requiring admin privileges."
  if pipNoteNeeded command then
    error_msg ++
    "\n\n[PACKAGE INSTALL STATUS]: Packages may already be " ++
    "installed. Only re-install if a missing package error occurs."
  else error_msg

/-- The retry loop of the `run_command` tool over its attempt outcomes. -/
def runCommandAttempts (command : String) : List (Except PyExc String) → String
  | [] => ""
  | [attempt] =>
    match attempt with
    | .ok result_str => runCommandOk command result_str
    | .error e => runCommandFinalError command e
  | attempt :: rest =>
    match attempt with
    | .ok result_str => runCommandOk command result_str
    | .error _ => runCommandAttempts command rest

/-- The `run_command` MCP tool: connect, then the five-attempt loop. -/
def run_command (sandbox_id command : String) (connectR : Except PyExc Unit)
    (attempts : List (Except PyExc String)) : String :=
  match connectR with
  | .error _ => connectErrorMsg sandbox_id
  | .ok _ => runCommandAttempts command attempts

/-- The final error string of `run_python_code` after five failed attempts. -/
def runCodeFinalError (sandbox_id : String) (e : PyExc) : String :=
  "[ERROR]: Failed to run code in sandbox " ++ sandbox_id ++ " after " ++
  "5 attempts. Exception type: " ++ e.name ++ ", Details: " ++ e.msg ++ "."

/-- The retry loop of the `run_python_code` tool. -/
def runCodeAttempts (sandbox_id : String) : List (Except PyExc String) → String
  | [] => ""
  | [attempt] =>
    match attempt with
    | .ok result => result
    | .error e => runCodeFinalError sandbox_id e
  | attempt :: rest =>
    match attempt with
    | .ok result => result
    | .error _ => runCodeAttempts sandbox_id rest

/-- The `run_python_code` MCP tool: connect, then the five-attempt loop. -/
def run_python_code (sandbox_id code_block : String)
    (connectR : Except PyExc Unit) (attempts : List (Except PyExc String)) :
    String :=
  match connectR with
  | .error _ => connectErrorMsg sandbox_id
  | .ok _ => runCodeAttempts sandbox_id attempts

/-- The success string of the upload tool for destination `dest`. -/
def uploadOkMsg (dest : String) : String :=
  "File uploaded to " ++ dest ++
  "\n\n[INFO]: For directly reading local files without uploading to " ++
  "sandbox, consider using the `read_file` tool which can read various " ++
  "file types directly from local paths or URLs."

/-- The `upload_file_from_local_to_sandbox` MCP tool: connect, compute the
    destination `os.path.join(sandbox_dir, basename(local_path))`, and run
    the upload once; its raised exception becomes the error string. -/
def upload_file_from_local_to_sandbox
    (sandbox_id local_file_path sandbox_file_path : String)
    (connectR : Except PyExc Unit) (uploadR : Except PyExc Unit) : String :=
  match connectR with
  | .error _ => connectErrorMsg sandbox_id
  | .ok _ =>
    match uploadR with
    | .ok _ =>
      uploadOkMsg (os_path_join sandbox_file_path (os_path_basename local_file_path))
    | .error e =>
      "[ERROR]: Failed to upload file " ++ local_file_path ++
      " to sandbox " ++ sandbox_id ++ ": " ++ e.msg ++
      "\n\n[INFO]: Consider using the `read_file` tool which can directly " ++
      "read various file types from local paths or URLs without uploading."

/-- The success string of the wget download tool. -/
def downloadInternetOk (dest : String) : String :=
  "File downloaded to " ++ dest ++
  "\n\n[INFO]: For directly reading files from URLs without downloading " ++
  "to sandbox, consider using the `read_file` tool."

/-- The retry loop of `download_file_from_internet_to_sandbox`: each
    attempt yields the wget destination (empty string when wget exited
    non-zero) or a raised exception. -/
def downloadInternetAttempts (url : String) :
    List (Except PyExc String) → String
  | [] => ""
  | [attempt] =>
    match attempt with
    | .ok dest =>
      if dest ≠ "" then downloadInternetOk dest
      else
        "[ERROR]: Failed to download file from " ++ url ++
        " after 3 attempts.\n\n[INFO]: To upload local files, use " ++
        "`upload_file_from_local_to_sandbox`."
    | .error e =>
      "[ERROR]: Failed to download file from " ++ url ++ ": " ++ e.msg
  | attempt :: rest =>
    match attempt with
    | .ok dest =>
      if dest ≠ "" then downloadInternetOk dest
      else downloadInternetAttempts url rest
    | .error _ => downloadInternetAttempts url rest

/-- The `download_file_from_internet_to_sandbox` MCP tool: connect, then
    the three-attempt wget loop. -/
def download_file_from_internet_to_sandbox (sandbox_id url : String)
    (connectR : Except PyExc Unit) (attempts : List (Except PyExc String)) :
    String :=
  match connectR with
  | .error _ => connectErrorMsg sandbox_id
  | .ok _ => downloadInternetAttempts url attempts

/-- The local path `download_file_from_sandbox_to_local` writes to. -/
def downloadLocalPath (LOGS_DIR sandbox_id sandbox_file_path : String)
    (local_filename : Option String) : String :=
  let tmpfiles_dir := os_path_join LOGS_DIR "tmpfiles"
  let name :=
    match local_filename with
    | none => os_path_basename sandbox_file_path
    | some s => if strBlank s then os_path_basename sandbox_file_path else s
  os_path_join tmpfiles_dir ("sandbox_" ++ sandbox_id ++ "_" ++ name)

/-- The success string of the sandbox-to-local download tool. -/
def downloadLocalOkMsg (local_path : String) : String :=
  "File downloaded successfully to: " ++ local_path ++
  "\n\n[INFO]: The file can now be accessed by other tools which only " ++
  "support local files and internet URLs, not sandbox files."

/-- The `download_file_from_sandbox_to_local` MCP tool: connect, check
    `LOGS_DIR`, compute the local target path, then download-and-write
    once (`bodyR` is that fallible body's outcome; its exception becomes
    the error string). -/
def download_file_from_sandbox_to_local
    (sandbox_id sandbox_file_path : String) (local_filename : Option String)
    (LOGS_DIR : String) (connectR : Except PyExc Unit)
    (bodyR : Except PyExc Unit) : String :=
  match connectR with
  | .error _ => connectErrorMsg sandbox_id
  | .ok _ =>
    if LOGS_DIR = "" then
      "[ERROR]: LOGS_DIR environment variable is not set."
    else
      match bodyR with
      | .ok _ =>
        downloadLocalOkMsg
          (downloadLocalPath LOGS_DIR sandbox_id sandbox_file_path local_filename)
      | .error e =>
        "[ERROR]: Failed to download file " ++ sandbox_file_path ++
        " from sandbox " ++ sandbox_id ++ ": " ++ e.msg ++
        "\n\n[INFO]: To upload local files to the sandbox, use " ++
        "`upload_file_from_local_to_sandbox` instead."

end PythonServer

/-- Whether a facade string begins with the `[ERROR]:` marker the calling
    agent parses for. -/
def hasErrorMarker (s : String) : Bool :=
  listHasPre "[ERROR]:".toList s.toList

/-! Concrete fixtures used by the witness and counterexample theorems. -/

/-- A fresh process: no containers, empty registry, no timers. -/
def emptySys : SysState :=
  { containers := demp, registry := demp, timers := demp }

/-- A concrete sandbox identifier of the generated shape. -/
def wId : String := "mf-abc123def456"

/-- A running container with an empty filesystem. -/
def wRunning : ContainerState :=
  { status := "running", files := demp, dirs := fun _ => false }

/-- The same container after it stopped. -/
def wExited : ContainerState :=
  { status := "exited", files := demp, dirs := fun _ => false }

/-- The in-process handle registered for `wId`. -/
def wSb : Sandbox :=
  { container_name := wId, sandbox_id := wId, timeout := 1800, created_at := 0 }

/-- A fresh process whose daemon still runs the container named `wId`. -/
def wSysByName : SysState :=
  { containers := dset demp wId wRunning, registry := demp, timers := demp }

/-- A process with a stale registry entry: the container exists but exited. -/
def wSysStale : SysState :=
  { containers := dset demp wId wExited, registry := dset demp wId wSb,
    timers := demp }

/-- A local filesystem holding one file to upload. -/
def wLocalFiles : Dict Bytes :=
  dset demp "/local/path.csv" [104, 105, 10]

/-- The `create(timeout=10)` step of the expiry-extension scenario. -/
def bugCreated : SysState × Sandbox :=
  DockerSandbox.create "miroflow-sandbox" 10 true "abc123def456" 0 emptySys

/-- The follow-up `set_timeout(10000)` on the created sandbox. -/
def bugExtended : SysState × Sandbox :=
  DockerSandbox.set_timeout bugCreated.2 10000 bugCreated.1

/-- A transport exception as the facade would catch it. -/
def wFailExc : PythonServer.PyExc :=
  { name := "DockerException", msg := "Error while fetching server API version" }

/-- Five failing creation attempts in a row. -/
def wFailAttempts : List (Except PythonServer.PyExc String) :=
  [.error wFailExc, .error wFailExc, .error wFailExc, .error wFailExc,
   .error wFailExc]

/-! ## Helper lemmas -/

theorem dset_self {α : Type} (m : Dict α) (k : String) (v : α) :
    dset m k v k = some v := by
  simp [dset]

theorem dpop_self {α : Type} (m : Dict α) (k : String) :
    dpop m k k = none := by
  simp [dpop]

theorem toList_append (s t : String) :
    (s ++ t).toList = s.toList ++ t.toList := by
  cases s
  cases t
  rfl

theorem listHasPre_append (p l m : List Char) (h : listHasPre p l = true) :
    listHasPre p (l ++ m) = true := by
  induction p generalizing l with
  | nil => rfl
  | cons a ps ih =>
    cases l with
    | nil => simp [listHasPre] at h
    | cons b bs =>
      simp only [listHasPre, List.cons_append, Bool.and_eq_true] at h ⊢
      exact ⟨h.1, ih bs h.2⟩

theorem hasErrorMarker_append (s t : String)
    (h : hasErrorMarker s = true) : hasErrorMarker (s ++ t) = true := by
  unfold hasErrorMarker at h ⊢
  rw [toList_append]
  exact listHasPre_append _ _ _ h

/-- Where a file written by `_write_file_to_container` is observable. -/
theorem write_file_lookup (path : String) (data : Bytes) (c : ContainerState)
    (q : String) :
    (DockerSandbox.write_file_to_container path data c).files q =
      if q = DockerSandbox.writePathOf path then some data else c.files q := by
  simp [DockerSandbox.write_file_to_container, DockerSandbox.put_archive,
    DockerSandbox.writePathOf, dset]

/-! ## Claims -/

/-- C1: for every command, per-call timeout and transport outcome,
`run_command` never raises: a transport/execution failure comes back as a
`CommandResult` with `exit_code = 1` and `error` set, and a successful
execution comes back as the captured stdout, stderr and the program's
numeric exit code with no error. -/
theorem run_command_never_raises (self : Sandbox) (command : String)
    (timeout : Option Nat) (exec : ExecOutcome) :
    (∃ msg, exec = .raises msg ∧
      DockerSandbox.run_command self command timeout exec =
        { stdout := "", stderr := "", exit_code := 1, error := some msg }) ∨
    (∃ code out err, exec = .ok code out err ∧
      DockerSandbox.run_command self command timeout exec =
        { stdout := out.getD "", stderr := err.getD "", exit_code := code,
          error := none }) := by
  cases exec with
  | ok code out err => exact Or.inr ⟨code, out, err, rfl, rfl⟩
  | raises msg => exact Or.inl ⟨msg, rfl, rfl⟩

/-- C10: the per-call `timeout` argument of `run_command` has no effect —
the computed `exec_timeout` is never passed to the underlying `exec_run`
call, so any two timeout arguments give the same execution and result. -/
theorem run_command_timeout_has_no_effect (self : Sandbox) (command : String)
    (t1 t2 : Option Nat) (exec : ExecOutcome) :
    DockerSandbox.run_command self command t1 exec =
      DockerSandbox.run_command self command t2 exec := rfl

/-- C3: `kill` is idempotent: it never raises (also on an already-removed
container, `removeFails` covering any failing removal call), it leaves no
registry entry for the session, and a second `kill` on the same handle again
never raises and again leaves no registry entry. -/
theorem kill_idempotent (self : Sandbox) (rf1 rf2 : Bool) (s : SysState) :
    (DockerSandbox.kill self rf1 s).2 = .ok () ∧
    (DockerSandbox.kill self rf1 s).1.registry self.sandbox_id = none ∧
    (DockerSandbox.kill self rf2 (DockerSandbox.kill self rf1 s).1).2 =
      .ok () ∧
    (DockerSandbox.kill self rf2
        (DockerSandbox.kill self rf1 s).1).1.registry self.sandbox_id =
      none := by
  refine ⟨rfl, ?_, rfl, ?_⟩ <;> simp [DockerSandbox.kill, dpop]

/-- C7: `_auto_cleanup` is best-effort and total: it returns (never raises)
whatever the container's state and whether removal fails, it always purges
the registry entry, it leaves the containers untouched unless the container
is still running, and when the container is still running and removal works
it removes it. -/
theorem auto_cleanup_best_effort (self : Sandbox) (removeFails : Bool)
    (s : SysState) :
    (DockerSandbox.auto_cleanup self removeFails s).2 = .ok () ∧
    (DockerSandbox.auto_cleanup self removeFails s).1.registry
      self.sandbox_id = none ∧
    (s.containers self.container_name = none →
      (DockerSandbox.auto_cleanup self removeFails s).1.containers =
        s.containers) ∧
    (∀ container, s.containers self.container_name = some container →
      container.status ≠ "running" →
      (DockerSandbox.auto_cleanup self removeFails s).1.containers =
        s.containers) ∧
    (∀ container, s.containers self.container_name = some container →
      container.status = "running" → removeFails = false →
      (DockerSandbox.auto_cleanup self removeFails s).1.containers
        self.container_name = none) := by
  refine ⟨rfl, ?_, ?_, ?_, ?_⟩
  · simp [DockerSandbox.auto_cleanup, dpop]
  · intro hnone
    simp [DockerSandbox.auto_cleanup, hnone]
  · intro container hc hs
    simp [DockerSandbox.auto_cleanup, hc, hs]
  · intro container hc hs hrf
    simp [DockerSandbox.auto_cleanup, hc, hs, hrf, dpop]

/-- C4 (code bug): `set_timeout` updates the configured timeout field but
does not reset the pending expiry trigger.  Concretely: after
`create(timeout=10)` and `set_timeout(10000)` the container is running and
the instance reports timeout 10000, yet the armed timer still carries the
original 10-second delay, and when that stale trigger fires `_auto_cleanup`
force-removes the container — the timeout extension is not honored. -/
theorem set_timeout_does_not_reset_trigger :
    bugExtended.2.timeout = 10000 ∧
    (bugExtended.1.containers "mf-abc123def456").isSome = true ∧
    bugExtended.1.timers "mf-abc123def456" = some 10 ∧
    (DockerSandbox.auto_cleanup bugExtended.2 false
        bugExtended.1).1.containers "mf-abc123def456" = none := by
  exact ⟨rfl, rfl, by decide, rfl⟩

/-- C5: cross-process reattachment: when the in-process registry has no
entry for the identifier but the daemon still runs a container of that name,
`connect` succeeds through the direct by-name lookup, returns a usable
handle for that container, and re-registers the session. -/
theorem connect_reattaches_by_name (sandbox_id : String) (now : Nat)
    (s : SysState) (container : ContainerState)
    (hmiss : s.registry sandbox_id = none)
    (hbyname : s.containers sandbox_id = some container)
    (hrunning : container.status = "running") :
    ∃ sandbox s2,
      DockerSandbox.connect sandbox_id now s = (s2, .ok sandbox) ∧
      sandbox.sandbox_id = sandbox_id ∧
      sandbox.container_name = sandbox_id ∧
      s2.registry sandbox_id = some sandbox := by
  refine ⟨⟨sandbox_id, sandbox_id, 1800, now⟩,
    { s with registry := dset s.registry sandbox_id ⟨sandbox_id, sandbox_id, 1800, now⟩ },
    ?_, rfl, rfl, ?_⟩
  · unfold DockerSandbox.connect
    rw [hmiss, hbyname]
    simp [hrunning]
  · simp [dset]

/-- Witness for C5 at a concrete fresh-process state. -/
theorem connect_reattaches_by_name_witness :
    ∃ sandbox s2,
      DockerSandbox.connect wId 0 wSysByName = (s2, .ok sandbox) ∧
      sandbox.sandbox_id = wId ∧
      sandbox.container_name = wId ∧
      s2.registry wId = some sandbox :=
  connect_reattaches_by_name wId 0 wSysByName wRunning rfl rfl rfl

/-- C6: a resolved resource that exists but is not running makes `connect`
fail with the not-found error instead of returning a handle, and afterwards
the registry holds no entry for the identifier — a stale entry is purged
before the error is raised. -/
theorem connect_stopped_not_found (sandbox_id : String) (now : Nat)
    (s : SysState)
    (h : (s.registry sandbox_id = none ∧
          ∃ container, s.containers sandbox_id = some container ∧
            container.status ≠ "running") ∨
         (∃ sandbox container, s.registry sandbox_id = some sandbox ∧
            sandbox.sandbox_id = sandbox_id ∧
            s.containers sandbox.container_name = some container ∧
            container.status ≠ "running")) :
    ∃ msg s2,
      DockerSandbox.connect sandbox_id now s =
        (s2, .error (.notFound msg)) ∧
      s2.registry sandbox_id = none := by
  rcases h with ⟨hmiss, container, hbyname, hstopped⟩ |
    ⟨sandbox, container, hhit, hid, hcont, hstopped⟩
  · refine ⟨"Sandbox '" ++ sandbox_id ++ "' container is no longer running.",
      s, ?_, hmiss⟩
    unfold DockerSandbox.connect
    rw [hmiss, hbyname]
    simp [hstopped]
  · refine ⟨"Sandbox '" ++ sandbox_id ++ "' container is no longer running.",
      { s with registry := dpop s.registry sandbox.sandbox_id }, ?_, ?_⟩
    · unfold DockerSandbox.connect
      rw [hhit]
      simp [hcont, hstopped]
    · simp [dpop, hid]

/-- Witness for C6 at a concrete stale-registry state. -/
theorem connect_stopped_not_found_witness :
    ∃ msg s2,
      DockerSandbox.connect wId 0 wSysStale =
        (s2, .error (.notFound msg)) ∧
      s2.registry wId = none :=
  connect_stopped_not_found wId 0 wSysStale
    (Or.inr ⟨wSb, wExited, rfl, rfl, rfl, by decide⟩)

/-- C2: `run_code` writes the code to the generated temporary file inside
the container (the written file holds exactly the encoded code while the
interpreter runs) and, for every outcome of the execution call — success,
non-zero exit, or a raised exception — the `finally` block removes the
temporary file from the container's filesystem. -/
theorem run_code_always_removes_tmpfile (code uuidHex : String)
    (exec : ExecOutcome) (c : ContainerState)
    (hpath : DockerSandbox.writePathOf (DockerSandbox.tmpPathOf uuidHex) =
      DockerSandbox.tmpPathOf uuidHex) :
    (DockerSandbox.write_file_to_container (DockerSandbox.tmpPathOf uuidHex)
        (strBytes code) c).files (DockerSandbox.tmpPathOf uuidHex) =
      some (strBytes code) ∧
    (DockerSandbox.run_code code uuidHex exec false c).1.files
      (DockerSandbox.tmpPathOf uuidHex) = none := by
  constructor
  · rw [write_file_lookup, hpath]
    simp
  · simp [DockerSandbox.run_code, dpop]

/-- Witness for C2 at a concrete code block and temp-file name. -/
theorem run_code_always_removes_tmpfile_witness :
    (DockerSandbox.write_file_to_container
        (DockerSandbox.tmpPathOf "a1b2c3d4")
        (strBytes "print(1+1)") wRunning).files
      (DockerSandbox.tmpPathOf "a1b2c3d4") = some (strBytes "print(1+1)") ∧
    (DockerSandbox.run_code "print(1+1)" "a1b2c3d4"
        (.ok 0 (some "2\n") none) false wRunning).1.files
      (DockerSandbox.tmpPathOf "a1b2c3d4") = none :=
  run_code_always_removes_tmpfile "print(1+1)" "a1b2c3d4"
    (.ok 0 (some "2\n") none) wRunning (by decide)

/-- C8: upload/download round-trip: for every byte payload `B` and every
well-formed sandbox file path `P` (one the path split/join reconstructs,
`writePathOf P = P`), uploading a local file holding `B` to `P` and then
downloading from `P` returns exactly `B`. -/
theorem upload_download_roundtrip (B : Bytes) (P local_path : String)
    (local_files : Dict Bytes) (c : ContainerState)
    (hlocal : local_files local_path = some B)
    (hP : DockerSandbox.writePathOf P = P) :
    ∃ c2,
      DockerSandbox.upload_file local_files local_path P c = .ok c2 ∧
      DockerSandbox.download_file P c2 = .ok B := by
  refine ⟨DockerSandbox.write_file_to_container P B c, ?_, ?_⟩
  · unfold DockerSandbox.upload_file
    rw [hlocal]
  · unfold DockerSandbox.download_file DockerSandbox.get_archive
    rw [write_file_lookup, hP]
    simp only [if_pos rfl]
    rfl

/-- Witness for C8 at a concrete payload and path. -/
theorem upload_download_roundtrip_witness :
    ∃ c2,
      DockerSandbox.upload_file wLocalFiles "/local/path.csv"
        "/home/sandbox/output.txt" wRunning = .ok c2 ∧
      DockerSandbox.download_file "/home/sandbox/output.txt" c2 =
        .ok [104, 105, 10] :=
  upload_download_roundtrip [104, 105, 10] "/home/sandbox/output.txt"
    "/local/path.csv" wLocalFiles wRunning rfl (by decide)

/-! ## Facade marker lemmas (for C9) -/

theorem connectErrorMsg_marker (sandbox_id : String) :
    hasErrorMarker (PythonServer.connectErrorMsg sandbox_id) = true := by
  unfold PythonServer.connectErrorMsg
  repeat apply hasErrorMarker_append
  decide

theorem runCommandFinalError_marker (command : String)
    (e : PythonServer.PyExc) :
    hasErrorMarker (PythonServer.runCommandFinalError command e) = true := by
  unfold PythonServer.runCommandFinalError
  cases PythonServer.pipNoteNeeded command <;> simp only [Bool.false_eq_true,
    if_false, if_true] <;>
  · repeat apply hasErrorMarker_append
    decide

theorem runCodeFinalError_marker (sandbox_id : String)
    (e : PythonServer.PyExc) :
    hasErrorMarker (PythonServer.runCodeFinalError sandbox_id e) = true := by
  unfold PythonServer.runCodeFinalError
  repeat apply hasErrorMarker_append
  decide

/-! ## Facade retry-loop characterizations (for C9) -/

theorem create_sandbox_spec (attempts : List (Except PythonServer.PyExc String))
    (h : attempts ≠ []) :
    (∃ sid, Except.ok sid ∈ attempts ∧
      PythonServer.create_sandbox attempts =
        "Sandbox created with sandbox_id: " ++ sid) ∨
    (∃ e, Except.error e ∈ attempts ∧
      PythonServer.create_sandbox attempts =
        "Failed to create sandbox after 5 attempts: " ++ e.msg ++
          ", please retry later.") := by
  induction attempts with
  | nil => cases h rfl
  | cons a rest ih =>
    cases rest with
    | nil =>
      cases a with
      | ok sid => exact Or.inl ⟨sid, by simp, rfl⟩
      | error e => exact Or.inr ⟨e, by simp, rfl⟩
    | cons b rest2 =>
      cases a with
      | ok sid => exact Or.inl ⟨sid, by simp, rfl⟩
      | error e =>
        rcases ih (by simp) with ⟨sid, hm, he⟩ | ⟨e2, hm, he⟩
        · exact Or.inl ⟨sid, List.mem_cons_of_mem _ hm, he⟩
        · exact Or.inr ⟨e2, List.mem_cons_of_mem _ hm, he⟩

theorem runCommandAttempts_spec (command : String)
    (attempts : List (Except PythonServer.PyExc String)) (h : attempts ≠ []) :
    hasErrorMarker (PythonServer.runCommandAttempts command attempts) = true ∨
    ∃ r, Except.ok r ∈ attempts ∧
      PythonServer.runCommandAttempts command attempts =
        PythonServer.runCommandOk command r := by
  induction attempts with
  | nil => cases h rfl
  | cons a rest ih =>
    cases rest with
    | nil =>
      cases a with
      | ok r => exact Or.inr ⟨r, by simp, rfl⟩
      | error e => exact Or.inl (runCommandFinalError_marker command e)
    | cons b rest2 =>
      cases a with
      | ok r => exact Or.inr ⟨r, by simp, rfl⟩
      | error e =>
        rcases ih (by simp) with hm | ⟨r, hmem, he⟩
        · exact Or.inl hm
        · exact Or.inr ⟨r, List.mem_cons_of_mem _ hmem, he⟩

theorem runCodeAttempts_spec (sandbox_id : String)
    (attempts : List (Except PythonServer.PyExc String)) (h : attempts ≠ []) :
    hasErrorMarker (PythonServer.runCodeAttempts sandbox_id attempts) = true ∨
    ∃ r, Except.ok r ∈ attempts ∧
      PythonServer.runCodeAttempts sandbox_id attempts = r := by
  induction attempts with
  | nil => cases h rfl
  | cons a rest ih =>
    cases rest with
    | nil =>
      cases a with
      | ok r => exact Or.inr ⟨r, by simp, rfl⟩
      | error e => exact Or.inl (runCodeFinalError_marker sandbox_id e)
    | cons b rest2 =>
      cases a with
      | ok r => exact Or.inr ⟨r, by simp, rfl⟩
      | error e =>
        rcases ih (by simp) with hm | ⟨r, hmem, he⟩
        · exact Or.inl hm
        · exact Or.inr ⟨r, List.mem_cons_of_mem _ hmem, he⟩

theorem downloadInternetAttempts_spec (url : String)
    (attempts : List (Except PythonServer.PyExc String)) (h : attempts ≠ []) :
    hasErrorMarker (PythonServer.downloadInternetAttempts url attempts) =
      true ∨
    ∃ dest, Except.ok dest ∈ attempts ∧ dest ≠ "" ∧
      PythonServer.downloadInternetAttempts url attempts =
        PythonServer.downloadInternetOk dest := by
  induction attempts with
  | nil => cases h rfl
  | cons a rest ih =>
    cases rest with
    | nil =>
      cases a with
      | ok dest =>
        by_cases hd : dest = ""
        · refine Or.inl ?_
          simp only [PythonServer.downloadInternetAttempts, hd, ne_eq,
            not_true_eq_false, if_false, ite_false]
          repeat apply hasErrorMarker_append
          decide
        · refine Or.inr ⟨dest, by simp, hd, ?_⟩
          simp [PythonServer.downloadInternetAttempts, hd]
      | error e =>
        refine Or.inl ?_
        simp only [PythonServer.downloadInternetAttempts]
        repeat apply hasErrorMarker_append
        decide
    | cons b rest2 =>
      cases a with
      | ok dest =>
        by_cases hd : dest = ""
        · rcases ih (by simp) with hm | ⟨d, hmem, hne, he⟩
          · refine Or.inl ?_
            simpa [PythonServer.downloadInternetAttempts, hd] using hm
          · refine Or.inr ⟨d, List.mem_cons_of_mem _ hmem, hne, ?_⟩
            simpa [PythonServer.downloadInternetAttempts, hd] using he
        · refine Or.inr ⟨dest, by simp, hd, ?_⟩
          simp [PythonServer.downloadInternetAttempts, hd]
      | error e =>
        rcases ih (by simp) with hm | ⟨d, hmem, hne, he⟩
        · exact Or.inl hm
        · exact Or.inr ⟨d, List.mem_cons_of_mem _ hmem, hne, he⟩

/-- C9 counterexample: a facade operation that fails without the `[ERROR]:`
marker.  When all five creation attempts raise, `create_sandbox` returns its
plain failure string, which does not begin with `[ERROR]:`. -/
theorem create_sandbox_failure_lacks_marker :
    PythonServer.create_sandbox wFailAttempts =
      "Failed to create sandbox after 5 attempts: Error while fetching " ++
        "server API version, please retry later." ∧
    hasErrorMarker (PythonServer.create_sandbox wFailAttempts) = false := by
  constructor <;> decide

/-- C9 (amended): every facade operation is total (returns a string, never
raises).  The five session-bound tools — `run_command`, `run_python_code`,
`upload_file_from_local_to_sandbox`,
`download_file_from_internet_to_sandbox`,
`download_file_from_sandbox_to_local` — return a string beginning with the
`[ERROR]:` marker on every failure and the success string or path
otherwise; `create_sandbox` returns its success string on success but, on
failure, a human-readable failure string that does not carry the marker. -/
theorem facade_text_contract :
    (∀ a1 a2 a3 a4 a5 : Except PythonServer.PyExc String,
      (∃ sid, Except.ok sid ∈ [a1, a2, a3, a4, a5] ∧
        PythonServer.create_sandbox [a1, a2, a3, a4, a5] =
          "Sandbox created with sandbox_id: " ++ sid) ∨
      (∃ e, Except.error e ∈ [a1, a2, a3, a4, a5] ∧
        PythonServer.create_sandbox [a1, a2, a3, a4, a5] =
          "Failed to create sandbox after 5 attempts: " ++ e.msg ++
            ", please retry later.")) ∧
    (∀ (sid command : String) (connectR : Except PythonServer.PyExc Unit)
        (a1 a2 a3 a4 a5 : Except PythonServer.PyExc String),
      hasErrorMarker
        (PythonServer.run_command sid command connectR
          [a1, a2, a3, a4, a5]) = true ∨
      ∃ r, Except.ok r ∈ [a1, a2, a3, a4, a5] ∧
        PythonServer.run_command sid command connectR [a1, a2, a3, a4, a5] =
          PythonServer.runCommandOk command r) ∧
    (∀ (sid code_block : String) (connectR : Except PythonServer.PyExc Unit)
        (a1 a2 a3 a4 a5 : Except PythonServer.PyExc String),
      hasErrorMarker
        (PythonServer.run_python_code sid code_block connectR
          [a1, a2, a3, a4, a5]) = true ∨
      ∃ r, Except.ok r ∈ [a1, a2, a3, a4, a5] ∧
        PythonServer.run_python_code sid code_block connectR
          [a1, a2, a3, a4, a5] = r) ∧
    (∀ (sid local_file_path sandbox_file_path : String)
        (connectR uploadR : Except PythonServer.PyExc Unit),
      hasErrorMarker
        (PythonServer.upload_file_from_local_to_sandbox sid local_file_path
          sandbox_file_path connectR uploadR) = true ∨
      PythonServer.upload_file_from_local_to_sandbox sid local_file_path
          sandbox_file_path connectR uploadR =
        PythonServer.uploadOkMsg
          (PythonServer.os_path_join sandbox_file_path
            (PythonServer.os_path_basename local_file_path))) ∧
    (∀ (sid url : String) (connectR : Except PythonServer.PyExc Unit)
        (a1 a2 a3 : Except PythonServer.PyExc String),
      hasErrorMarker
        (PythonServer.download_file_from_internet_to_sandbox sid url
          connectR [a1, a2, a3]) = true ∨
      ∃ dest, Except.ok dest ∈ [a1, a2, a3] ∧ dest ≠ "" ∧
        PythonServer.download_file_from_internet_to_sandbox sid url
          connectR [a1, a2, a3] = PythonServer.downloadInternetOk dest) ∧
    (∀ (sid sandbox_file_path LOGS_DIR : String)
        (local_filename : Option String)
        (connectR bodyR : Except PythonServer.PyExc Unit),
      hasErrorMarker
        (PythonServer.download_file_from_sandbox_to_local sid
          sandbox_file_path local_filename LOGS_DIR connectR bodyR) = true ∨
      PythonServer.download_file_from_sandbox_to_local sid
          sandbox_file_path local_filename LOGS_DIR connectR bodyR =
        PythonServer.downloadLocalOkMsg
          (PythonServer.downloadLocalPath LOGS_DIR sid sandbox_file_path
            local_filename)) := by
  refine ⟨?_, ?_, ?_, ?_, ?_, ?_⟩
  · intro a1 a2 a3 a4 a5
    exact create_sandbox_spec [a1, a2, a3, a4, a5] (by simp)
  · intro sid command connectR a1 a2 a3 a4 a5
    cases connectR with
    | error e => exact Or.inl (connectErrorMsg_marker sid)
    | ok u => exact runCommandAttempts_spec command [a1, a2, a3, a4, a5] (by simp)
  · intro sid code_block connectR a1 a2 a3 a4 a5
    cases connectR with
    | error e => exact Or.inl (connectErrorMsg_marker sid)
    | ok u => exact runCodeAttempts_spec sid [a1, a2, a3, a4, a5] (by simp)
  · intro sid local_file_path sandbox_file_path connectR uploadR
    cases connectR with
    | error e => exact Or.inl (connectErrorMsg_marker sid)
    | ok u =>
      cases uploadR with
      | ok v => exact Or.inr rfl
      | error e =>
        refine Or.inl ?_
        simp only [PythonServer.upload_file_from_local_to_sandbox]
        repeat apply hasErrorMarker_append
        decide
  · intro sid url connectR a1 a2 a3
    cases connectR with
    | error e => exact Or.inl (connectErrorMsg_marker sid)
    | ok u => exact downloadInternetAttempts_spec url [a1, a2, a3] (by simp)
  · intro sid sandbox_file_path LOGS_DIR local_filename connectR bodyR
    cases connectR with
    | error e => exact Or.inl (connectErrorMsg_marker sid)
    | ok u =>
      by_cases hL : LOGS_DIR = ""
      · refine Or.inl ?_
        have hres : PythonServer.download_file_from_sandbox_to_local sid
            sandbox_file_path local_filename LOGS_DIR (.ok u) bodyR =
            "[ERROR]: LOGS_DIR environment variable is not set." := by
          simp [PythonServer.download_file_from_sandbox_to_local, hL]
        rw [hres]
        decide
      · cases bodyR with
        | ok v =>
          refine Or.inr ?_
          simp [PythonServer.download_file_from_sandbox_to_local, hL]
        | error e =>
          refine Or.inl ?_
          simp only [PythonServer.download_file_from_sandbox_to_local, hL,
            if_neg hL]
          repeat apply hasErrorMarker_append
          decide

end MiroFlow
